import Mathlib

/-!
Shallow embedding of `chromium_src/chrome/browser/plugins/plugin_info_message_filter.cc`
(namespace `extensions`): the plugin candidate resolution and authorization engine.

External collaborators (PluginService catalog query, PluginServiceFilter,
crash tracker, WebViewRendererState guest registry) are modelled as an
environment of pure functions, read-only for the lifetime of a request,
exactly as the code consults them.
-/

/-- The plugin execution-model tags of `content::WebPluginInfo`; the code only
branches on `PLUGIN_TYPE_NPAPI` (the legacy in-process type). -/
inductive PluginType
  | npapi
  | pepper_in_process
  | pepper_out_of_process
  | browser_plugin
deriving DecidableEq, Repr

/-- One (MIME type, extra parameters) association of `content::WebPluginMimeType`. -/
structure WebPluginMimeType where
  mime_type : String
  additional_param_names : List String
  additional_param_values : List String
deriving DecidableEq, Repr

/-- Embedding of `content::WebPluginInfo`: identity (path), execution type, and declared
MIME associations (used only by the internal-handler availability query). -/
structure WebPluginInfo where
  path : String
  type : PluginType
  mime_types : List WebPluginMimeType
deriving DecidableEq, Repr

instance : Inhabited WebPluginInfo :=
  ⟨⟨"", PluginType.npapi, []⟩⟩

/-- Embedding of `ChromeViewHostMsg_GetPluginInfo_Status`. -/
inductive GetPluginInfo_Status
  | kAllowed
  | kDisabled
  | kUnauthorized
  | kNotFound
  | kNPAPINotSupported
deriving DecidableEq, Repr

/-- Embedding of `ChromeViewHostMsg_GetPluginInfo_Output`: the verdict.  `plugin` is `none`
exactly when the out-parameter is never assigned by `FindEnabledPlugin`
(the empty-candidate branch), matching the nullable plugin of the verdict. -/
structure GetPluginInfo_Output where
  status : GetPluginInfo_Status
  plugin : Option WebPluginInfo
  actual_mime_type : String
deriving DecidableEq, Repr

/-- The external collaborators the code consults, as read-only functions:
`PluginService::GetPluginInfoArray` (with `allow_wildcard = true` hard-wired,
returning the parallel candidate and matched-MIME-type vectors),
the optional `content::PluginServiceFilter`,
`PluginService::IsPluginUnstable`,
`WebViewRendererState::IsGuest`, and
`PluginService::NPAPIPluginsSupported`. -/
structure Env where
  getPluginInfoArray : String → String → List WebPluginInfo × List String
  filter : Option (Nat → Nat → String → String → WebPluginInfo → Bool)
  isPluginUnstable : String → Bool
  isGuest : Nat → Bool
  npapiSupported : Bool

/-- The availability test of the selection loop:
`!filter || filter->IsPluginAvailable(render_process_id, render_frame_id,
resource_context, url, top_origin_url, &matching_plugins[i])` — an absent
filter makes every candidate available. -/
def isPluginAvailable (env : Env) (render_process_id render_frame_id : Nat)
    (url top_origin_url : String) (p : WebPluginInfo) : Bool :=
  match env.filter with
  | none => true
  | some f => f render_process_id render_frame_id url top_origin_url p

/-- The MIME types of plugins known to have PPAPI versions
(`kPepperPluginMimeTypes`), used to bail early in the not-found branch. -/
def kPepperPluginMimeTypes : List String :=
  [ "application/pdf",
    "application/x-google-chrome-pdf",
    "application/x-nacl",
    "application/x-pnacl",
    "application/vnd.chromium.remoting-viewer",
    "application/x-shockwave-flash",
    "application/futuresplash" ]

/-- The selection loop `for (; i < matching_plugins.size(); ++i) if (avail) break;`:
the index of the first candidate the availability test accepts, `none` when the
loop runs off the end. -/
def firstAvailableIndex (avail : WebPluginInfo → Bool) : List WebPluginInfo → Option Nat
  | [] => none
  | p :: rest =>
      if avail p = true then some 0
      else (firstAvailableIndex avail rest).map (· + 1)

/-- Embedding of `PluginInfoMessageFilter::Context::FindEnabledPlugin`.  Returns the C++
return value (`enabled`) paired with the filled output: status starts
`kAllowed`; an empty candidate list yields `kNotFound` (the pepper-MIME
denylist loop on NPAPI-less platforms only returns early, leaving the status
and outputs unchanged, so both arms of that test coincide); otherwise the
first available candidate is chosen, falling back to index 0 with
`kDisabled` when none is available. -/
def FindEnabledPlugin (env : Env) (render_process_id render_frame_id : Nat)
    (url top_origin_url mime_type : String) : Bool × GetPluginInfo_Output :=
  let pr := env.getPluginInfoArray url mime_type
  match pr.1 with
  | [] =>
      if env.npapiSupported = false ∧ mime_type ∈ kPepperPluginMimeTypes then
        (false, ⟨GetPluginInfo_Status.kNotFound, none, ""⟩)
      else
        (false, ⟨GetPluginInfo_Status.kNotFound, none, ""⟩)
  | p :: rest =>
      match firstAvailableIndex
          (isPluginAvailable env render_process_id render_frame_id url top_origin_url)
          (p :: rest) with
      | some i =>
          (true, ⟨GetPluginInfo_Status.kAllowed,
                  some ((p :: rest).getD i default), pr.2.getD i ""⟩)
      | none =>
          (false, ⟨GetPluginInfo_Status.kDisabled,
                   some ((p :: rest).getD 0 default), pr.2.getD 0 ""⟩)

/-- Embedding of `PluginInfoMessageFilter::Context::DecidePluginStatus`: the trust
downgrades applied to the chosen plugin.  NPAPI inside a guest wins first and
yields `kNPAPINotSupported`; then instability yields `kUnauthorized`; then a
still-`kAllowed` status inside a guest yields `kUnauthorized`. -/
def DecidePluginStatus (env : Env) (render_process_id : Nat)
    (plugin : WebPluginInfo) (status : GetPluginInfo_Status) : GetPluginInfo_Status :=
  if plugin.type = PluginType.npapi ∧ env.isGuest render_process_id = true then
    GetPluginInfo_Status.kNPAPINotSupported
  else if env.isPluginUnstable plugin.path = true then
    GetPluginInfo_Status.kUnauthorized
  else if status = GetPluginInfo_Status.kAllowed ∧ env.isGuest render_process_id = true then
    GetPluginInfo_Status.kUnauthorized
  else status

/-- Embedding of `PluginInfoMessageFilter::PluginsLoaded`, the whole resolution: run
`FindEnabledPlugin`, and only when it returned `true` (an enabled plugin was
found) run `DecidePluginStatus` on the chosen plugin. -/
def PluginsLoaded (env : Env) (render_process_id render_frame_id : Nat)
    (url top_origin_url mime_type : String) : GetPluginInfo_Output :=
  let r := FindEnabledPlugin env render_process_id render_frame_id url top_origin_url mime_type
  match r.1, r.2.plugin with
  | true, some p =>
      ⟨DecidePluginStatus env render_process_id p r.2.status,
       r.2.plugin, r.2.actual_mime_type⟩
  | _, _ => r.2

/-- Inner loop of `OnIsInternalPluginAvailableForMimeType`: first association
of one plugin whose `mime_type` equals the request (exact string equality). -/
def findMimeMatch (mts : List WebPluginMimeType) (mime_type : String) :
    Option WebPluginMimeType :=
  match mts with
  | [] => none
  | mt :: rest =>
      if mt.mime_type == mime_type then some mt else findMimeMatch rest mime_type

/-- Embedding of `PluginInfoMessageFilter::OnIsInternalPluginAvailableForMimeType` (the
diagnostic file logging is out-of-scope I/O): scan the internal plugins in
order, per plugin scan its associations in order, and on the first exact MIME
match return `true` with that association's extra parameter names and values;
otherwise `false` with the out-parameters left in their fresh (empty) state. -/
def OnIsInternalPluginAvailableForMimeType (plugins : List WebPluginInfo)
    (mime_type : String) : Bool × List String × List String :=
  match plugins with
  | [] => (false, [], [])
  | p :: rest =>
      match findMimeMatch p.mime_types mime_type with
      | some mt => (true, mt.additional_param_names, mt.additional_param_values)
      | none => OnIsInternalPluginAvailableForMimeType rest mime_type

/-- Restatement of the spec sentence for the internal-handler query (§6): the
first exact match over the flattened handler/association order. -/
def isInternalHandlerAvailableSpec (plugins : List WebPluginInfo)
    (mime_type : String) : Bool × List String × List String :=
  match (List.flatten (plugins.map (fun p => p.mime_types))).find?
      (fun mt => mt.mime_type == mime_type) with
  | some mt => (true, mt.additional_param_names, mt.additional_param_values)
  | none => (false, [], [])

/-- A legacy in-process (NPAPI) plugin used in concrete scenarios. -/
def npapiPlugin : WebPluginInfo :=
  ⟨"npapi-plugin-path", PluginType.npapi, []⟩

/-- A standard (Pepper out-of-process) plugin used in concrete scenarios. -/
def stdPlugin : WebPluginInfo :=
  ⟨"std-plugin-path", PluginType.pepper_out_of_process, []⟩

/-- Scenario: one NPAPI candidate, no filter, requester is a guest, and the
crash tracker flags everything unstable. -/
def envNpapiGuestUnstable : Env :=
  { getPluginInfoArray := fun _ _ => ([npapiPlugin], ["application/x-test"]),
    filter := none,
    isPluginUnstable := fun _ => true,
    isGuest := fun _ => true,
    npapiSupported := true }

/-- Scenario: one NPAPI candidate, no filter, requester is a guest, nothing
flagged unstable. -/
def envNpapiGuestStable : Env :=
  { getPluginInfoArray := fun _ _ => ([npapiPlugin], ["application/x-test"]),
    filter := none,
    isPluginUnstable := fun _ => false,
    isGuest := fun _ => true,
    npapiSupported := true }

/-- Scenario: the catalog matches nothing, on a platform without NPAPI
support; requests for a denylisted pepper MIME type hit the bail-early loop. -/
def envEmptyCatalog : Env :=
  { getPluginInfoArray := fun _ _ => ([], []),
    filter := none,
    isPluginUnstable := fun _ => false,
    isGuest := fun _ => false,
    npapiSupported := false }

/-- Scenario: two candidates, a filter that rejects everything, requester a
guest, everything flagged unstable — the all-disabled fallback. -/
def envAllRejected : Env :=
  { getPluginInfoArray := fun _ _ =>
      ([npapiPlugin, stdPlugin], ["application/x-test", "application/x-std"]),
    filter := some (fun _ _ _ _ _ => false),
    isPluginUnstable := fun _ => true,
    isGuest := fun _ => true,
    npapiSupported := true }

/-- Scenario: one standard candidate, no filter, not a guest, stable — the
plain allowed path. -/
def envAllowed : Env :=
  { getPluginInfoArray := fun _ _ => ([stdPlugin], ["application/x-std"]),
    filter := none,
    isPluginUnstable := fun _ => false,
    isGuest := fun _ => false,
    npapiSupported := true }

/-- Scenario: one standard candidate, no filter, requester a guest, everything
flagged unstable. -/
def envStdGuestUnstable : Env :=
  { getPluginInfoArray := fun _ _ => ([stdPlugin], ["application/x-std"]),
    filter := none,
    isPluginUnstable := fun _ => true,
    isGuest := fun _ => true,
    npapiSupported := true }

/-- Unfolding lemma: an empty catalog answer makes `FindEnabledPlugin` report
`kNotFound` with no plugin, on every platform and for every MIME type. -/
theorem findEnabledPlugin_nil (env : Env) (render_process_id render_frame_id : Nat)
    (url top_origin_url mime_type : String) (ms : List String)
    (hpr : env.getPluginInfoArray url mime_type = ([], ms)) :
    FindEnabledPlugin env render_process_id render_frame_id url top_origin_url mime_type =
      (false, ⟨GetPluginInfo_Status.kNotFound, none, ""⟩) := by
  unfold FindEnabledPlugin
  rw [hpr]
  simp [ite_self]

/-- Unfolding lemma: with a nonempty candidate list and a selection loop that
stops at index `i`, `FindEnabledPlugin` returns that candidate as enabled. -/
theorem findEnabledPlugin_cons_some (env : Env)
    (render_process_id render_frame_id : Nat) (url top_origin_url mime_type : String)
    (p : WebPluginInfo) (rest : List WebPluginInfo) (ms : List String) (i : Nat)
    (hpr : env.getPluginInfoArray url mime_type = (p :: rest, ms))
    (hidx : firstAvailableIndex
        (isPluginAvailable env render_process_id render_frame_id url top_origin_url)
        (p :: rest) = some i) :
    FindEnabledPlugin env render_process_id render_frame_id url top_origin_url mime_type =
      (true, ⟨GetPluginInfo_Status.kAllowed,
              some ((p :: rest).getD i default), ms.getD i ""⟩) := by
  unfold FindEnabledPlugin
  rw [hpr]
  simp [hidx]

/-- Unfolding lemma: with a nonempty candidate list and a selection loop that
runs off the end, `FindEnabledPlugin` falls back to index 0 with `kDisabled`. -/
theorem findEnabledPlugin_cons_none (env : Env)
    (render_process_id render_frame_id : Nat) (url top_origin_url mime_type : String)
    (p : WebPluginInfo) (rest : List WebPluginInfo) (ms : List String)
    (hpr : env.getPluginInfoArray url mime_type = (p :: rest, ms))
    (hidx : firstAvailableIndex
        (isPluginAvailable env render_process_id render_frame_id url top_origin_url)
        (p :: rest) = none) :
    FindEnabledPlugin env render_process_id render_frame_id url top_origin_url mime_type =
      (false, ⟨GetPluginInfo_Status.kDisabled,
               some ((p :: rest).getD 0 default), ms.getD 0 ""⟩) := by
  unfold FindEnabledPlugin
  rw [hpr]
  simp [hidx]

/-- When the availability test rejects every candidate, the selection loop
runs off the end. -/
theorem firstAvailableIndex_eq_none (avail : WebPluginInfo → Bool) :
    ∀ l : List WebPluginInfo, (∀ p ∈ l, avail p = false) →
      firstAvailableIndex avail l = none := by
  intro l
  induction l with
  | nil => intro _; rfl
  | cons p rest ih =>
      intro h
      have hp : avail p = false := h p (List.mem_cons_self p rest)
      have hrest := ih (fun q hq => h q (List.mem_cons_of_mem p hq))
      simp [firstAvailableIndex, hp, hrest]

/-- When the selection loop stops at index `i`, that index is in range and
the candidate there passes the availability test. -/
theorem firstAvailableIndex_some (avail : WebPluginInfo → Bool) :
    ∀ (l : List WebPluginInfo) (i : Nat), firstAvailableIndex avail l = some i →
      i < l.length ∧ avail (l.getD i default) = true := by
  intro l
  induction l with
  | nil => intro i h; cases h
  | cons p rest ih =>
      intro i h
      by_cases hp : avail p = true
      · rw [firstAvailableIndex, if_pos hp] at h
        cases h
        exact ⟨Nat.succ_pos _, hp⟩
      · rw [firstAvailableIndex, if_neg hp] at h
        cases hr : firstAvailableIndex avail rest with
        | none => rw [hr] at h; cases h
        | some j =>
            rw [hr] at h
            simp only [Option.map_some'] at h
            obtain ⟨hlt, hav⟩ := ih j hr
            cases h
            exact ⟨Nat.succ_lt_succ hlt, by simpa using hav⟩

/-- When `FindEnabledPlugin` returns `true`, the status it filled is
`kAllowed`. -/
theorem findEnabledPlugin_true_status (env : Env)
    (render_process_id render_frame_id : Nat) (url top_origin_url mime_type : String)
    (h : (FindEnabledPlugin env render_process_id render_frame_id
            url top_origin_url mime_type).1 = true) :
    (FindEnabledPlugin env render_process_id render_frame_id
        url top_origin_url mime_type).2.status = GetPluginInfo_Status.kAllowed := by
  rcases hpr : env.getPluginInfoArray url mime_type with ⟨ps, ms⟩
  cases ps with
  | nil =>
      rw [findEnabledPlugin_nil env render_process_id render_frame_id
          url top_origin_url mime_type ms hpr] at h
      simp at h
  | cons p rest =>
      cases hidx : firstAvailableIndex
          (isPluginAvailable env render_process_id render_frame_id url top_origin_url)
          (p :: rest) with
      | some i =>
          rw [findEnabledPlugin_cons_some env render_process_id render_frame_id
              url top_origin_url mime_type p rest ms i hpr hidx]
      | none =>
          rw [findEnabledPlugin_cons_none env render_process_id render_frame_id
              url top_origin_url mime_type p rest ms hpr hidx] at h
          simp at h

/-- When an enabled plugin was found, the resolution rewrites only the status
through `DecidePluginStatus`, keeping the chosen plugin and MIME type. -/
theorem pluginsLoaded_true_some (env : Env)
    (render_process_id render_frame_id : Nat) (url top_origin_url mime_type : String)
    (p : WebPluginInfo)
    (hen : (FindEnabledPlugin env render_process_id render_frame_id
              url top_origin_url mime_type).1 = true)
    (hp : (FindEnabledPlugin env render_process_id render_frame_id
              url top_origin_url mime_type).2.plugin = some p) :
    PluginsLoaded env render_process_id render_frame_id url top_origin_url mime_type =
      ⟨DecidePluginStatus env render_process_id p
          (FindEnabledPlugin env render_process_id render_frame_id
              url top_origin_url mime_type).2.status,
       some p,
       (FindEnabledPlugin env render_process_id render_frame_id
           url top_origin_url mime_type).2.actual_mime_type⟩ := by
  unfold PluginsLoaded
  simp only [hen, hp]

/-- When no enabled plugin was found, the resolution returns the output of
`FindEnabledPlugin` untouched: no downgrade step runs. -/
theorem pluginsLoaded_false (env : Env)
    (render_process_id render_frame_id : Nat) (url top_origin_url mime_type : String)
    (hen : (FindEnabledPlugin env render_process_id render_frame_id
              url top_origin_url mime_type).1 = false) :
    PluginsLoaded env render_process_id render_frame_id url top_origin_url mime_type =
      (FindEnabledPlugin env render_process_id render_frame_id
          url top_origin_url mime_type).2 := by
  unfold PluginsLoaded
  simp only [hen]

/-- Helper: `DecidePluginStatus` can only produce `kNPAPINotSupported`,
`kUnauthorized`, or its input status. -/
theorem decidePluginStatus_cases (env : Env) (render_process_id : Nat)
    (plugin : WebPluginInfo) (status : GetPluginInfo_Status) :
    DecidePluginStatus env render_process_id plugin status =
        GetPluginInfo_Status.kNPAPINotSupported ∨
    DecidePluginStatus env render_process_id plugin status =
        GetPluginInfo_Status.kUnauthorized ∨
    DecidePluginStatus env render_process_id plugin status = status := by
  unfold DecidePluginStatus
  split
  · exact Or.inl rfl
  · split
    · exact Or.inr (Or.inl rfl)
    · split
      · exact Or.inr (Or.inl rfl)
      · exact Or.inr (Or.inr rfl)

/-- C3 counterexample: on a platform without NPAPI support, a request for the
denylisted pepper MIME type `application/pdf` with an empty candidate list
still resolves to `kNotFound`, not `kNPAPINotSupported` — the denylist loop
only returns early without changing the status. -/
theorem no_candidates_denylist_counterexample :
    envEmptyCatalog.npapiSupported = false ∧
    "application/pdf" ∈ kPepperPluginMimeTypes ∧
    (envEmptyCatalog.getPluginInfoArray "u" "application/pdf").1 = [] ∧
    PluginsLoaded envEmptyCatalog 1 2 "u" "t" "application/pdf" =
      ⟨GetPluginInfo_Status.kNotFound, none, ""⟩ ∧
    (PluginsLoaded envEmptyCatalog 1 2 "u" "t" "application/pdf").status ≠
      GetPluginInfo_Status.kNPAPINotSupported := by
  decide

/-- C3 (amended): whenever the candidate matcher returns an empty candidate
list, resolution returns no plugin with `kNotFound` and an empty MIME type —
on every platform and for every requested MIME type, including the
known-legacy-capable (pepper) denylist on NPAPI-less platforms, whose check
only returns early without replacing the status. -/
theorem no_candidates_not_found (env : Env)
    (render_process_id render_frame_id : Nat) (url top_origin_url mime_type : String)
    (ms : List String)
    (hpr : env.getPluginInfoArray url mime_type = ([], ms)) :
    PluginsLoaded env render_process_id render_frame_id url top_origin_url mime_type =
      ⟨GetPluginInfo_Status.kNotFound, none, ""⟩ := by
  have heq := findEnabledPlugin_nil env render_process_id render_frame_id
      url top_origin_url mime_type ms hpr
  rw [pluginsLoaded_false env render_process_id render_frame_id url top_origin_url mime_type
      (by rw [heq]), heq]

/-- C3 witness: the amended statement at the denylist input. -/
theorem no_candidates_not_found_witness :
    envEmptyCatalog.getPluginInfoArray "u" "application/pdf" = ([], []) ∧
    PluginsLoaded envEmptyCatalog 1 2 "u" "t" "application/pdf" =
      ⟨GetPluginInfo_Status.kNotFound, none, ""⟩ :=
  ⟨rfl, no_candidates_not_found envEmptyCatalog 1 2 "u" "t" "application/pdf" [] rfl⟩

/-- C4: when at least one candidate exists and the availability filter rejects
every candidate, resolution returns the first candidate in catalog enumeration
order with `kDisabled` (the downgrade step never runs in this case). -/
theorem all_rejected_first_candidate_disabled (env : Env)
    (render_process_id render_frame_id : Nat) (url top_origin_url mime_type : String)
    (p : WebPluginInfo) (rest : List WebPluginInfo) (ms : List String)
    (hpr : env.getPluginInfoArray url mime_type = (p :: rest, ms))
    (hrej : ∀ q ∈ p :: rest,
        isPluginAvailable env render_process_id render_frame_id url top_origin_url q
          = false) :
    PluginsLoaded env render_process_id render_frame_id url top_origin_url mime_type =
      ⟨GetPluginInfo_Status.kDisabled, some p, ms.getD 0 ""⟩ := by
  have hidx := firstAvailableIndex_eq_none
      (isPluginAvailable env render_process_id render_frame_id url top_origin_url)
      (p :: rest) hrej
  have heq := findEnabledPlugin_cons_none env render_process_id render_frame_id
      url top_origin_url mime_type p rest ms hpr hidx
  rw [pluginsLoaded_false env render_process_id render_frame_id url top_origin_url mime_type
      (by rw [heq]), heq]
  simp

/-- C4 witness: the all-rejected scenario returns the first candidate,
disabled. -/
theorem all_rejected_first_candidate_disabled_witness :
    envAllRejected.getPluginInfoArray "u" "m" =
      ([npapiPlugin, stdPlugin], ["application/x-test", "application/x-std"]) ∧
    (∀ q ∈ [npapiPlugin, stdPlugin],
        isPluginAvailable envAllRejected 1 2 "u" "t" q = false) ∧
    PluginsLoaded envAllRejected 1 2 "u" "t" "m" =
      ⟨GetPluginInfo_Status.kDisabled, some npapiPlugin,
        ["application/x-test", "application/x-std"].getD 0 ""⟩ :=
  ⟨rfl, by decide,
    all_rejected_first_candidate_disabled envAllRejected 1 2 "u" "t" "m"
      npapiPlugin [stdPlugin] ["application/x-test", "application/x-std"] rfl (by decide)⟩

/-- C7: when the availability filter accepts the first candidate (with an
absent filter accepting everything by definition of `isPluginAvailable`), and
the requester is not a guest and the candidate is not flagged unstable, the
resolution returns that first candidate with `kAllowed`. -/
theorem first_available_allowed (env : Env)
    (render_process_id render_frame_id : Nat) (url top_origin_url mime_type : String)
    (p : WebPluginInfo) (rest : List WebPluginInfo) (ms : List String)
    (hpr : env.getPluginInfoArray url mime_type = (p :: rest, ms))
    (hav : isPluginAvailable env render_process_id render_frame_id url top_origin_url p
        = true)
    (hg : env.isGuest render_process_id = false)
    (hun : env.isPluginUnstable p.path = false) :
    PluginsLoaded env render_process_id render_frame_id url top_origin_url mime_type =
      ⟨GetPluginInfo_Status.kAllowed, some p, ms.getD 0 ""⟩ := by
  have hidx : firstAvailableIndex
      (isPluginAvailable env render_process_id render_frame_id url top_origin_url)
      (p :: rest) = some 0 := by
    rw [firstAvailableIndex, if_pos hav]
  have heq := findEnabledPlugin_cons_some env render_process_id render_frame_id
      url top_origin_url mime_type p rest ms 0 hpr hidx
  rw [pluginsLoaded_true_some env render_process_id render_frame_id url top_origin_url
      mime_type p (by rw [heq]) (by rw [heq]; simp), heq]
  simp [DecidePluginStatus, hg, hun]

/-- C7 witness: the plain allowed path, with an absent availability filter. -/
theorem first_available_allowed_witness :
    envAllowed.filter = none ∧
    isPluginAvailable envAllowed 1 2 "u" "t" stdPlugin = true ∧
    envAllowed.isGuest 1 = false ∧
    envAllowed.isPluginUnstable stdPlugin.path = false ∧
    PluginsLoaded envAllowed 1 2 "u" "t" "m" =
      ⟨GetPluginInfo_Status.kAllowed, some stdPlugin, ["application/x-std"].getD 0 ""⟩ :=
  ⟨rfl, rfl, rfl, rfl,
    first_available_allowed envAllowed 1 2 "u" "t" "m" stdPlugin [] ["application/x-std"]
      rfl rfl rfl rfl⟩

/-- C8: the trust downgrades run only when candidate selection ended in
`kAllowed`; whenever the selection status is anything else, the verdict is
exactly what `FindEnabledPlugin` filled — in particular a `kDisabled` verdict
stays `kDisabled` no matter what the instability tracker or the isolation
registry would answer, and no step can upgrade a status back to `kAllowed`. -/
theorem downgrades_only_from_allowed (env : Env)
    (render_process_id render_frame_id : Nat) (url top_origin_url mime_type : String)
    (h : (FindEnabledPlugin env render_process_id render_frame_id
            url top_origin_url mime_type).2.status ≠ GetPluginInfo_Status.kAllowed) :
    PluginsLoaded env render_process_id render_frame_id url top_origin_url mime_type =
      (FindEnabledPlugin env render_process_id render_frame_id
          url top_origin_url mime_type).2 := by
  cases hen : (FindEnabledPlugin env render_process_id render_frame_id
      url top_origin_url mime_type).1 with
  | false =>
      exact pluginsLoaded_false env render_process_id render_frame_id
        url top_origin_url mime_type hen
  | true =>
      exact absurd (findEnabledPlugin_true_status env render_process_id render_frame_id
        url top_origin_url mime_type hen) h

/-- C8 witness: all candidates rejected, requester a guest, everything
unstable — the `kDisabled` verdict is untouched by the downgrade step. -/
theorem downgrades_only_from_allowed_witness :
    (FindEnabledPlugin envAllRejected 1 2 "u" "t" "m").2.status ≠
      GetPluginInfo_Status.kAllowed ∧
    envAllRejected.isGuest 1 = true ∧
    envAllRejected.isPluginUnstable npapiPlugin.path = true ∧
    PluginsLoaded envAllRejected 1 2 "u" "t" "m" =
      (FindEnabledPlugin envAllRejected 1 2 "u" "t" "m").2 :=
  ⟨by decide, rfl, rfl,
    downgrades_only_from_allowed envAllRejected 1 2 "u" "t" "m" (by decide)⟩

/-- C1 counterexample: an available NPAPI candidate requested from a guest
surface resolves to `kNPAPINotSupported`, not `kUnauthorized` (even with the
candidate flagged unstable); and when the availability filter rejects every
candidate the verdict is `kDisabled`, not `kUnauthorized` — so the claimed
`unauthorized`-regardless-of-availability behaviour fails twice over. -/
theorem npapi_guest_unauthorized_counterexample :
    ((PluginsLoaded envNpapiGuestUnstable 1 2 "u" "t" "m").plugin = some npapiPlugin ∧
     npapiPlugin.type = PluginType.npapi ∧
     envNpapiGuestUnstable.isGuest 1 = true ∧
     envNpapiGuestUnstable.isPluginUnstable npapiPlugin.path = true ∧
     (PluginsLoaded envNpapiGuestUnstable 1 2 "u" "t" "m").status =
       GetPluginInfo_Status.kNPAPINotSupported ∧
     (PluginsLoaded envNpapiGuestUnstable 1 2 "u" "t" "m").status ≠
       GetPluginInfo_Status.kUnauthorized) ∧
    ((PluginsLoaded envAllRejected 1 2 "u" "t" "m").plugin = some npapiPlugin ∧
     envAllRejected.isGuest 1 = true ∧
     (PluginsLoaded envAllRejected 1 2 "u" "t" "m").status =
       GetPluginInfo_Status.kDisabled ∧
     (PluginsLoaded envAllRejected 1 2 "u" "t" "m").status ≠
       GetPluginInfo_Status.kUnauthorized) := by
  decide

/-- C1 (amended): when the chosen candidate — one the availability filter
accepted — is of the legacy in-process (NPAPI) type and the requester is a
guest surface, the resolution returns `kNPAPINotSupported`, regardless of the
instability tracker's answer; when no candidate is available the downgrade
never runs and the verdict stays `kDisabled`. -/
theorem npapi_guest_npapi_not_supported (env : Env)
    (render_process_id render_frame_id : Nat) (url top_origin_url mime_type : String)
    (p : WebPluginInfo)
    (hen : (FindEnabledPlugin env render_process_id render_frame_id
              url top_origin_url mime_type).1 = true)
    (hp : (FindEnabledPlugin env render_process_id render_frame_id
              url top_origin_url mime_type).2.plugin = some p)
    (htype : p.type = PluginType.npapi)
    (hg : env.isGuest render_process_id = true) :
    (PluginsLoaded env render_process_id render_frame_id
        url top_origin_url mime_type).status = GetPluginInfo_Status.kNPAPINotSupported := by
  rw [pluginsLoaded_true_some env render_process_id render_frame_id url top_origin_url
      mime_type p hen hp]
  simp [DecidePluginStatus, htype, hg]

/-- C1 witness: the amended statement at the unstable NPAPI guest scenario. -/
theorem npapi_guest_npapi_not_supported_witness :
    (FindEnabledPlugin envNpapiGuestUnstable 1 2 "u" "t" "m").1 = true ∧
    (FindEnabledPlugin envNpapiGuestUnstable 1 2 "u" "t" "m").2.plugin =
      some npapiPlugin ∧
    envNpapiGuestUnstable.isPluginUnstable npapiPlugin.path = true ∧
    (PluginsLoaded envNpapiGuestUnstable 1 2 "u" "t" "m").status =
      GetPluginInfo_Status.kNPAPINotSupported :=
  ⟨by decide, by decide, rfl,
    npapi_guest_npapi_not_supported envNpapiGuestUnstable 1 2 "u" "t" "m" npapiPlugin
      (by decide) (by decide) rfl rfl⟩

/-- C2 counterexample: an available NPAPI candidate in a guest yields
`kNPAPINotSupported` with the plugin present and a nonempty actual MIME type,
so `status ∈ {kNotFound, kNPAPINotSupported}` does not imply an absent
plugin. -/
theorem status_plugin_invariant_counterexample :
    (PluginsLoaded envNpapiGuestStable 1 2 "u" "t" "m").status =
      GetPluginInfo_Status.kNPAPINotSupported ∧
    (PluginsLoaded envNpapiGuestStable 1 2 "u" "t" "m").plugin = some npapiPlugin ∧
    (PluginsLoaded envNpapiGuestStable 1 2 "u" "t" "m").plugin ≠ none ∧
    (PluginsLoaded envNpapiGuestStable 1 2 "u" "t" "m").actual_mime_type ≠ "" := by
  decide

/-- C2 (amended): a `kAllowed` verdict always carries a plugin that passed the
availability test, and a `kNotFound` verdict always carries no plugin and an
empty actual MIME type; `kNPAPINotSupported`, by contrast, arises only from
the NPAPI-in-guest downgrade and therefore carries a plugin. -/
theorem allowed_available_not_found_absent (env : Env)
    (render_process_id render_frame_id : Nat) (url top_origin_url mime_type : String) :
    ((PluginsLoaded env render_process_id render_frame_id
          url top_origin_url mime_type).status = GetPluginInfo_Status.kAllowed →
      ∃ q, (PluginsLoaded env render_process_id render_frame_id
              url top_origin_url mime_type).plugin = some q ∧
        isPluginAvailable env render_process_id render_frame_id url top_origin_url q
          = true) ∧
    ((PluginsLoaded env render_process_id render_frame_id
          url top_origin_url mime_type).status = GetPluginInfo_Status.kNotFound →
      (PluginsLoaded env render_process_id render_frame_id
          url top_origin_url mime_type).plugin = none ∧
      (PluginsLoaded env render_process_id render_frame_id
          url top_origin_url mime_type).actual_mime_type = "") := by
  rcases hpr : env.getPluginInfoArray url mime_type with ⟨ps, ms⟩
  cases ps with
  | nil =>
      have heq := findEnabledPlugin_nil env render_process_id render_frame_id
          url top_origin_url mime_type ms hpr
      have hout : PluginsLoaded env render_process_id render_frame_id
          url top_origin_url mime_type =
            ⟨GetPluginInfo_Status.kNotFound, none, ""⟩ := by
        rw [pluginsLoaded_false env render_process_id render_frame_id url top_origin_url
            mime_type (by rw [heq]), heq]
      rw [hout]
      exact ⟨fun h => absurd h (by decide), fun _ => ⟨rfl, rfl⟩⟩
  | cons p rest =>
      cases hidx : firstAvailableIndex
          (isPluginAvailable env render_process_id render_frame_id url top_origin_url)
          (p :: rest) with
      | some i =>
          have heq := findEnabledPlugin_cons_some env render_process_id render_frame_id
              url top_origin_url mime_type p rest ms i hpr hidx
          obtain ⟨hlt, hav⟩ := firstAvailableIndex_some
              (isPluginAvailable env render_process_id render_frame_id url top_origin_url)
              (p :: rest) i hidx
          have hout := pluginsLoaded_true_some env render_process_id render_frame_id
              url top_origin_url mime_type ((p :: rest).getD i default)
              (by rw [heq]) (by rw [heq])
          constructor
          · intro _
            exact ⟨(p :: rest).getD i default, by rw [hout], hav⟩
          · intro h
            exfalso
            rw [hout, heq] at h
            simp only [] at h
            rcases decidePluginStatus_cases env render_process_id
                ((p :: rest).getD i default) GetPluginInfo_Status.kAllowed with hc | hc | hc <;>
              rw [hc] at h <;> exact absurd h (by decide)
      | none =>
          have heq := findEnabledPlugin_cons_none env render_process_id render_frame_id
              url top_origin_url mime_type p rest ms hpr hidx
          have hout : PluginsLoaded env render_process_id render_frame_id
              url top_origin_url mime_type =
                ⟨GetPluginInfo_Status.kDisabled, some ((p :: rest).getD 0 default),
                 ms.getD 0 ""⟩ := by
            rw [pluginsLoaded_false env render_process_id render_frame_id url top_origin_url
                mime_type (by rw [heq]), heq]
          rw [hout]
          exact ⟨fun h => by simp at h, fun h => by simp at h⟩

/-- C2 witness: the amended statement at the plain allowed scenario. -/
theorem allowed_available_not_found_absent_witness :
    (PluginsLoaded envAllowed 1 2 "u" "t" "m").status = GetPluginInfo_Status.kAllowed ∧
    ∃ q, (PluginsLoaded envAllowed 1 2 "u" "t" "m").plugin = some q ∧
      isPluginAvailable envAllowed 1 2 "u" "t" q = true :=
  ⟨by decide,
    (allowed_available_not_found_absent envAllowed 1 2 "u" "t" "m").1 (by decide)⟩

/-- C5 counterexample: an unstable chosen candidate does not always yield
`kUnauthorized` — an unstable NPAPI candidate in a guest yields
`kNPAPINotSupported` (the NPAPI-in-guest check returns first), and with every
candidate rejected by the filter the unstable first candidate keeps
`kDisabled` (the downgrade step never runs). -/
theorem unstable_unauthorized_counterexample :
    (envNpapiGuestUnstable.isPluginUnstable npapiPlugin.path = true ∧
     (PluginsLoaded envNpapiGuestUnstable 1 2 "u" "t" "m").plugin = some npapiPlugin ∧
     (PluginsLoaded envNpapiGuestUnstable 1 2 "u" "t" "m").status ≠
       GetPluginInfo_Status.kUnauthorized) ∧
    (envAllRejected.isPluginUnstable npapiPlugin.path = true ∧
     (PluginsLoaded envAllRejected 1 2 "u" "t" "m").plugin = some npapiPlugin ∧
     (PluginsLoaded envAllRejected 1 2 "u" "t" "m").status ≠
       GetPluginInfo_Status.kUnauthorized) := by
  decide

/-- C5 (amended): when the chosen candidate — one the availability filter
accepted — is flagged unstable by the instability tracker, and it is not an
NPAPI candidate requested from a guest (that case returns
`kNPAPINotSupported` first), the resolution returns `kUnauthorized` even if
it would otherwise be allowed. -/
theorem unstable_chosen_unauthorized (env : Env)
    (render_process_id render_frame_id : Nat) (url top_origin_url mime_type : String)
    (p : WebPluginInfo)
    (hen : (FindEnabledPlugin env render_process_id render_frame_id
              url top_origin_url mime_type).1 = true)
    (hp : (FindEnabledPlugin env render_process_id render_frame_id
              url top_origin_url mime_type).2.plugin = some p)
    (hun : env.isPluginUnstable p.path = true)
    (hng : ¬(p.type = PluginType.npapi ∧ env.isGuest render_process_id = true)) :
    (PluginsLoaded env render_process_id render_frame_id
        url top_origin_url mime_type).status = GetPluginInfo_Status.kUnauthorized := by
  rw [pluginsLoaded_true_some env render_process_id render_frame_id url top_origin_url
      mime_type p hen hp]
  simp [DecidePluginStatus, hng, hun]

/-- C5 witness: an unstable standard candidate in a guest still resolves to
`kUnauthorized`. -/
theorem unstable_chosen_unauthorized_witness :
    (FindEnabledPlugin envStdGuestUnstable 1 2 "u" "t" "m").1 = true ∧
    (FindEnabledPlugin envStdGuestUnstable 1 2 "u" "t" "m").2.plugin = some stdPlugin ∧
    envStdGuestUnstable.isPluginUnstable stdPlugin.path = true ∧
    ¬(stdPlugin.type = PluginType.npapi ∧ envStdGuestUnstable.isGuest 1 = true) ∧
    (PluginsLoaded envStdGuestUnstable 1 2 "u" "t" "m").status =
      GetPluginInfo_Status.kUnauthorized :=
  ⟨by decide, by decide, rfl, by decide,
    unstable_chosen_unauthorized envStdGuestUnstable 1 2 "u" "t" "m" stdPlugin
      (by decide) (by decide) rfl (by decide)⟩

/-- C6 counterexample: the claim quantifies over chosen candidates that are
"not of legacy type or not unstable-flagged"; an available, stable NPAPI
candidate in a guest satisfies that disjunction yet resolves to
`kNPAPINotSupported`, not `kUnauthorized`. -/
theorem guest_default_deny_counterexample :
    (FindEnabledPlugin envNpapiGuestStable 1 2 "u" "t" "m").1 = true ∧
    (FindEnabledPlugin envNpapiGuestStable 1 2 "u" "t" "m").2.plugin =
      some npapiPlugin ∧
    (¬(npapiPlugin.type = PluginType.npapi) ∨
      ¬(envNpapiGuestStable.isPluginUnstable npapiPlugin.path = true)) ∧
    envNpapiGuestStable.isGuest 1 = true ∧
    (PluginsLoaded envNpapiGuestStable 1 2 "u" "t" "m").status =
      GetPluginInfo_Status.kNPAPINotSupported ∧
    (PluginsLoaded envNpapiGuestStable 1 2 "u" "t" "m").status ≠
      GetPluginInfo_Status.kUnauthorized := by
  decide

/-- C6 (amended): when the chosen candidate — one the availability filter
accepted — is not of the legacy in-process (NPAPI) type and the requester is
a guest surface, the resolution returns `kUnauthorized` (isolated surfaces
default-deny, through either the instability branch or the allowed-in-guest
branch), whatever the instability tracker answers. -/
theorem guest_standard_unauthorized (env : Env)
    (render_process_id render_frame_id : Nat) (url top_origin_url mime_type : String)
    (p : WebPluginInfo)
    (hen : (FindEnabledPlugin env render_process_id render_frame_id
              url top_origin_url mime_type).1 = true)
    (hp : (FindEnabledPlugin env render_process_id render_frame_id
              url top_origin_url mime_type).2.plugin = some p)
    (htype : p.type ≠ PluginType.npapi)
    (hg : env.isGuest render_process_id = true) :
    (PluginsLoaded env render_process_id render_frame_id
        url top_origin_url mime_type).status = GetPluginInfo_Status.kUnauthorized := by
  have hst := findEnabledPlugin_true_status env render_process_id render_frame_id
      url top_origin_url mime_type hen
  rw [pluginsLoaded_true_some env render_process_id render_frame_id url top_origin_url
      mime_type p hen hp, hst]
  simp [DecidePluginStatus, htype, hg, ite_self]

/-- C6 witness: an available standard candidate requested from a guest (here
with the tracker flagging it unstable as well) resolves to `kUnauthorized`. -/
theorem guest_standard_unauthorized_witness :
    (FindEnabledPlugin envStdGuestUnstable 1 2 "u" "t" "m").1 = true ∧
    (FindEnabledPlugin envStdGuestUnstable 1 2 "u" "t" "m").2.plugin = some stdPlugin ∧
    stdPlugin.type ≠ PluginType.npapi ∧
    envStdGuestUnstable.isGuest 1 = true ∧
    (PluginsLoaded envStdGuestUnstable 1 2 "u" "t" "m").status =
      GetPluginInfo_Status.kUnauthorized :=
  ⟨by decide, by decide, by decide, rfl,
    guest_standard_unauthorized envStdGuestUnstable 1 2 "u" "t" "m" stdPlugin
      (by decide) (by decide) (by decide) rfl⟩

/-- The per-plugin association scan is the first-match query over the
association list. -/
theorem findMimeMatch_eq_find (mts : List WebPluginMimeType) (mime_type : String) :
    findMimeMatch mts mime_type =
      mts.find? (fun mt => mt.mime_type == mime_type) := by
  induction mts with
  | nil => rfl
  | cons mt rest ih =>
      by_cases h : (mt.mime_type == mime_type) = true
      · rw [findMimeMatch, if_pos h]
        simp [List.find?, h]
      · have h' : (mt.mime_type == mime_type) = false := by simpa using h
        rw [findMimeMatch, if_neg h, ih]
        simp [List.find?, h']

/-- C9: the internal-handler availability query equals the specified one: it
scans only the given built-in handlers for an exact (case-sensitive,
unnormalized) MIME-type match, returns the first match — handler enumeration
order first, per-handler association order second, i.e. the first match of the
flattened association sequence — as `available = true` with that match's extra
parameter names and values, and returns `available = false` with empty
sequences when nothing matches. -/
theorem internal_handler_matches_spec (plugins : List WebPluginInfo)
    (mime_type : String) :
    OnIsInternalPluginAvailableForMimeType plugins mime_type =
      isInternalHandlerAvailableSpec plugins mime_type := by
  induction plugins with
  | nil => rfl
  | cons p rest ih =>
      rw [OnIsInternalPluginAvailableForMimeType, findMimeMatch_eq_find]
      rw [isInternalHandlerAvailableSpec, List.map_cons, List.flatten_cons,
        List.find?_append]
      cases hf : p.mime_types.find? (fun mt => mt.mime_type == mime_type) with
      | some mt => simp [hf]
      | none =>
          simp only [Option.none_or, ih]
          rfl

/-- C10: with at least one candidate, the verdict's plugin and actual MIME
type are taken from the same index of the matcher's two parallel output
sequences — in the available-candidate case and in the all-disabled fallback
alike. -/
theorem verdict_plugin_mime_same_index (env : Env)
    (render_process_id render_frame_id : Nat) (url top_origin_url mime_type : String)
    (ps : List WebPluginInfo) (ms : List String)
    (hpr : env.getPluginInfoArray url mime_type = (ps, ms))
    (hne : ps ≠ [])
    (hlen : ms.length = ps.length) :
    ∃ i, i < ps.length ∧
      (PluginsLoaded env render_process_id render_frame_id
          url top_origin_url mime_type).plugin = some (ps.getD i default) ∧
      (PluginsLoaded env render_process_id render_frame_id
          url top_origin_url mime_type).actual_mime_type = ms.getD i "" := by
  cases ps with
  | nil => exact absurd rfl hne
  | cons p rest =>
      cases hidx : firstAvailableIndex
          (isPluginAvailable env render_process_id render_frame_id url top_origin_url)
          (p :: rest) with
      | some i =>
          have heq := findEnabledPlugin_cons_some env render_process_id render_frame_id
              url top_origin_url mime_type p rest ms i hpr hidx
          obtain ⟨hlt, _⟩ := firstAvailableIndex_some
              (isPluginAvailable env render_process_id render_frame_id url top_origin_url)
              (p :: rest) i hidx
          have hout := pluginsLoaded_true_some env render_process_id render_frame_id
              url top_origin_url mime_type ((p :: rest).getD i default)
              (by rw [heq]) (by rw [heq])
          exact ⟨i, hlt, by rw [hout], by rw [hout, heq]⟩
      | none =>
          have heq := findEnabledPlugin_cons_none env render_process_id render_frame_id
              url top_origin_url mime_type p rest ms hpr hidx
          have hout := pluginsLoaded_false env render_process_id render_frame_id
              url top_origin_url mime_type (by rw [heq])
          exact ⟨0, Nat.succ_pos _, by rw [hout, heq], by rw [hout, heq]⟩

/-- C10 witness: the parallel-index property at the plain allowed scenario. -/
theorem verdict_plugin_mime_same_index_witness :
    envAllowed.getPluginInfoArray "u" "m" = ([stdPlugin], ["application/x-std"]) ∧
    ∃ i, i < [stdPlugin].length ∧
      (PluginsLoaded envAllowed 1 2 "u" "t" "m").plugin =
        some ([stdPlugin].getD i default) ∧
      (PluginsLoaded envAllowed 1 2 "u" "t" "m").actual_mime_type =
        ["application/x-std"].getD i "" :=
  ⟨rfl, verdict_plugin_mime_same_index envAllowed 1 2 "u" "t" "m"
      [stdPlugin] ["application/x-std"] rfl (by simp) rfl⟩
